import Mathlib

/-!
Verification of the model-conversion core of `geyser_pack_converter.py`
(Java-Edition → Bedrock-Edition Minecraft resource-pack converter).

The Python code manipulates parsed JSON documents, so the embedding works
over an explicit JSON value type.  Python operations that can raise
(`dict.get` on a non-dict, indexing, membership tests, iteration,
arithmetic on non-numbers) are modelled in an `Except Unit` monad; the
source's `try/except` blocks become `.toOption` / explicit fallbacks.
Numbers are rationals; where the source copies a JSON value verbatim into
an output document the embedding keeps the `Json` value, and where the
source computes arithmetic the embedding holds a rational.
-/

/-- A parsed JSON value (the result of Python's `json.load`).  Objects are
association lists in insertion order, mirroring Python dicts built by the
JSON parser. -/
inductive Json where
  | null : Json
  | bool (b : Bool) : Json
  | num (q : ℚ) : Json
  | str (s : String) : Json
  | arr (xs : List Json) : Json
  | obj (kvs : List (String × Json)) : Json

/- String literals used by the converter, as named constants. -/

def kFrom : String := "from"

def kTo : String := "to"

def kFaces : String := "faces"

def kRotation : String := "rotation"

def kOrigin : String := "origin"

def kAngle : String := "angle"

def kAxis : String := "axis"

def kAxisX : String := "x"

def kAxisY : String := "y"

def kAxisZ : String := "z"

def kUv : String := "uv"

/-- Python truthiness (`if value:`) for parsed-JSON values. -/
def pyTruthy : Json → Bool
  | Json.null => false
  | Json.bool b => b
  | Json.num q => decide (q ≠ 0)
  | Json.str s => decide (s ≠ "")
  | Json.arr xs => !xs.isEmpty
  | Json.obj kvs => !kvs.isEmpty

/-- Python `value == "literal"`: true only for the equal string. -/
def Json.eqStr : Json → String → Bool
  | Json.str s, k => s == k
  | _, _ => false

/-- Python `d.get(key, default)`: raises `AttributeError` unless `d` is a
dict, otherwise returns the stored value or the default. -/
def pyGetD : Json → String → Json → Except Unit Json
  | Json.obj kvs, k, d => Except.ok (((kvs.find? (fun p => p.1 == k)).map (fun p => p.2)).getD d)
  | _, _, _ => Except.error ()

/-- Python `x[i]` for a literal non-negative index: list indexing, string
indexing (yielding a one-character string), everything else raises
(`KeyError` for dicts with string keys, `TypeError` otherwise). -/
def pyIndexNat : Json → Nat → Except Unit Json
  | Json.arr xs, i =>
      match xs[i]? with
      | some v => Except.ok v
      | none => Except.error ()
  | Json.str s, i =>
      match s.data[i]? with
      | some c => Except.ok (Json.str (String.mk [c]))
      | none => Except.error ()
  | _, _ => Except.error ()

/-- Python `d[key]` for a string key: only dicts succeed (and only when the
key is present). -/
def pyIndexStr : Json → String → Except Unit Json
  | Json.obj kvs, k =>
      match kvs.find? (fun p => p.1 == k) with
      | some p => Except.ok p.2
      | none => Except.error ()
  | _, _ => Except.error ()

/-- Python `"key" in x`: key test for dicts, element test for lists,
substring test for strings; raises `TypeError` otherwise. -/
def pyMem (k : String) : Json → Except Unit Bool
  | Json.obj kvs => Except.ok (kvs.any (fun p => p.1 == k))
  | Json.arr xs => Except.ok (xs.any (fun x => x.eqStr k))
  | Json.str s => Except.ok (decide (k.data <:+: s.data))
  | _ => Except.error ()

/-- Python `iter(x)`: lists yield their elements, strings their characters
(as one-character strings), dicts their keys; numbers and `None` raise. -/
def pyIter : Json → Except Unit (List Json)
  | Json.arr xs => Except.ok xs
  | Json.str s => Except.ok (s.data.map (fun c => Json.str (String.mk [c])))
  | Json.obj kvs => Except.ok (kvs.map (fun p => Json.str p.1))
  | _ => Except.error ()

/-- Python numeric coercion: numbers are themselves, booleans coerce to
0/1 (Python `bool` is an `int`), everything else raises `TypeError` when
used in arithmetic. -/
def asNum : Json → Except Unit ℚ
  | Json.num q => Except.ok q
  | Json.bool b => Except.ok (if b then 1 else 0)
  | _ => Except.error ()

/-- `x[i]` followed by use in arithmetic. -/
def getNumAt (j : Json) (i : Nat) : Except Unit ℚ := do
  asNum (← pyIndexNat j i)

/-- A three-element JSON array of numbers. -/
def arr3 (a b c : ℚ) : Json := Json.arr [Json.num a, Json.num b, Json.num c]

/-- One face entry of a Bedrock cube: `uv` is copied verbatim from the
source array, `uv_size` is computed arithmetic. -/
structure FaceUV where
  uv : List Json
  uv_size : List ℚ

/-- A Bedrock cube as built by `convert_element_to_cube`. -/
structure Cube where
  origin : List Json
  size : List ℚ
  uv : List (String × FaceUV)
  pivot : Option (List Json)
  rotation : Option (List Json)

/-- The `for face_name, face_data in faces.items()` loop (source lines
352-359): faces lacking a `uv` key are skipped, entries are translated to
`{uv:[uv[0],uv[1]], uv_size:[uv[2]-uv[0], uv[3]-uv[1]]}`. -/
def faceStep (acc : List (String × FaceUV)) (p : String × Json) :
    Except Unit (List (String × FaceUV)) := do
  let hasUv ← pyMem kUv p.2
  if hasUv then do
    let uv ← pyIndexStr p.2 kUv
    let u0 ← pyIndexNat uv 0
    let v0 ← pyIndexNat uv 1
    let u0n ← asNum u0
    let v0n ← asNum v0
    let u1n ← getNumAt uv 2
    let v1n ← getNumAt uv 3
    pure (acc ++ [(p.1, FaceUV.mk [u0, v0] [u1n - u0n, v1n - v0n])])
  else
    pure acc

def facesUV : Json → Except Unit (List (String × FaceUV))
  | Json.obj kvs => kvs.foldlM faceStep []
  | _ => Except.error ()

/-- The rotation handling of `convert_element_to_cube` (source lines
361-378): when the rotation entry is truthy, the pivot is always set to
`[-origin[0]+8, origin[1], origin[2]-8]`, the per-axis rotation vector is
built (negated angle for `x`/`y`, verbatim angle for `z`), and the
`rotation` key is set only when the vector has a truthy component. -/
def rotPart (rotation : Json) : Except Unit (Option (List Json) × Option (List Json)) :=
  if pyTruthy rotation then do
    let pv ← pyGetD rotation kOrigin (arr3 8 8 8)
    let p0 ← getNumAt pv 0
    let p1 ← pyIndexNat pv 1
    let p2 ← getNumAt pv 2
    let angle ← pyGetD rotation kAngle (Json.num 0)
    let axis ← pyGetD rotation kAxis (Json.str kAxisY)
    let rot ←
      if axis.eqStr kAxisX then do
        let a ← asNum angle
        pure [Json.num (-a), Json.num 0, Json.num 0]
      else if axis.eqStr kAxisY then do
        let a ← asNum angle
        pure [Json.num 0, Json.num (-a), Json.num 0]
      else if axis.eqStr kAxisZ then
        pure [Json.num 0, Json.num 0, angle]
      else
        pure ([Json.num 0, Json.num 0, Json.num 0] : List Json)
    pure (some [Json.num (-p0 + 8), p1, Json.num (p2 - 8)],
          if rot.any pyTruthy then some rot else none)
  else
    pure (none, none)

/-- The data extracted by `convert_element_to_cube` before the rotation
handling: origin (entry 1 copied verbatim), size, translated faces, and
the raw rotation entry. -/
structure PreCube where
  origin : List Json
  size : List ℚ
  uv : List (String × FaceUV)
  rotJ : Json

/-- Source lines 327-359: field access with Python defaults
(`from=[0,0,0]`, `to=[1,1,1]`, `faces={}`, `rotation={}`), the coordinate
transform `origin = [-to[0]+8, from[1], from[2]-8]`,
`size = [to[0]-from[0], to[1]-from[1], to[2]-from[2]]`, and the face
translation. -/
def elemPre (element : Json) : Except Unit PreCube := do
  let from_pos ← pyGetD element kFrom (arr3 0 0 0)
  let to_pos ← pyGetD element kTo (arr3 1 1 1)
  let faces ← pyGetD element kFaces (Json.obj [])
  let rotation ← pyGetD element kRotation (Json.obj [])
  let t0 ← getNumAt to_pos 0
  let f1 ← pyIndexNat from_pos 1
  let f2 ← getNumAt from_pos 2
  let f0 ← getNumAt from_pos 0
  let f1n ← getNumAt from_pos 1
  let t1 ← getNumAt to_pos 1
  let t2 ← getNumAt to_pos 2
  let uv ← facesUV faces
  pure (PreCube.mk [Json.num (-t0 + 8), f1, Json.num (f2 - 8)]
                   [t0 - f0, t1 - f1n, t2 - f2] uv rotation)

/-- The body of `convert_element_to_cube`, before the enclosing
`try/except`. -/
def convertElementExc (element : Json) : Except Unit Cube := do
  let p ← elemPre element
  let pr ← rotPart p.rotJ
  pure (Cube.mk p.origin p.size p.uv pr.1 pr.2)

/-- `convert_element_to_cube` (source lines 325-384): any exception during
conversion yields `None`. -/
def convert_element_to_cube (element : Json) : Option Cube :=
  (convertElementExc element).toOption

/-- Canonical well-typed element with numeric corner coordinates, as the
data model describes. -/
def mkElement (a b c d e f : ℚ) (faces rot : Json) : Json :=
  Json.obj [(kFrom, arr3 a b c), (kTo, arr3 d e f), (kFaces, faces), (kRotation, rot)]

example :
    convert_element_to_cube (Json.obj []) =
      some (Cube.mk [Json.num (-1 + 8), Json.num 0, Json.num (0 - 8)]
        [1 - 0, 1 - 0, 1 - 0] [] none none) := by
  rfl

example :
    convert_element_to_cube (mkElement 0 0 0 16 16 16 (Json.obj []) Json.null) =
      some (Cube.mk [Json.num (-16 + 8), Json.num 0, Json.num (0 - 8)]
        [16 - 0, 16 - 0, 16 - 0] [] none none) := by
  rfl

/- ----------------------------------------------------------------- -/
/- Model translation: `convert_java_model_to_bedrock` and the sibling
   document builders (source lines 251-323 and 386-506).            -/
/- ----------------------------------------------------------------- -/

def kTextureSize : String := "texture_size"

def kTextures : String := "textures"

def kElements : String := "elements"

def kDisplay : String := "display"

def kTranslation : String := "translation"

def kScale : String := "scale"

def kMain : String := "main"

def pGeometry : String := "geometry."

def pAnimation : String := "animation."

def pController : String := "controller.render."

def pCustom : String := "custom:"

def pTexturesDir : String := "textures/"

def kTprh : String := "thirdperson_righthand"

def kTplh : String := "thirdperson_lefthand"

def kFprh : String := "firstperson_righthand"

def kFplh : String := "firstperson_lefthand"

/-- One bone of a Bedrock geometry document (the converter only ever emits
the single bone `"main"` with pivot `[0,0,0]`). -/
structure Bone where
  name : String
  pivot : List ℚ
  cubes : List Cube

/-- The `minecraft:geometry` description plus bones.  `texture_width` and
`texture_height` are copied verbatim from `texture_size[0]` and
`texture_size[1]`; the visible-bounds fields are fixed constants. -/
structure BedrockGeometry where
  identifier : String
  texture_width : Json
  texture_height : Json
  visible_bounds_width : ℚ
  visible_bounds_height : ℚ
  visible_bounds_offset : List ℚ
  bones : List Bone

/-- A render-controller document (source lines 386-401). -/
structure RenderController where
  controller : String
  geometry : String
  texture : String

/-- One animation bone: the transform keys that were present, copied
verbatim (`translation` becomes `position`). -/
structure BoneAnim where
  position : Option Json
  rotation : Option Json
  scale : Option Json

/-- An animation document: identifier, `loop`, and bones in insertion
order. -/
structure AnimationDoc where
  identifier : String
  loop : Bool
  bones : List (String × BoneAnim)

/-- An attachable document (source lines 434-477); both texture slots
point at the same texture and `enable_attachables` is always true. -/
structure AttachableDoc where
  identifier : String
  texture : String
  geometry : String
  animation : String
  render_controller : String
  enable_attachables : Bool

/-- A file written into the Bedrock pack by one model conversion. -/
inductive EmittedFile where
  | geo (g : BedrockGeometry) : EmittedFile
  | renderController (r : RenderController) : EmittedFile
  | animation (a : AnimationDoc) : EmittedFile
  | attachable (a : AttachableDoc) : EmittedFile

def EmittedFile.isGeoFile : EmittedFile → Bool
  | EmittedFile.geo _ => true
  | _ => false

def EmittedFile.isAnimationFile : EmittedFile → Bool
  | EmittedFile.animation _ => true
  | _ => false

def EmittedFile.isAttachableFile : EmittedFile → Bool
  | EmittedFile.attachable _ => true
  | _ => false

/-- The animation files among a conversion's emitted files. -/
def animationsOf (files : List EmittedFile) : List AnimationDoc :=
  files.filterMap (fun f =>
    match f with
    | EmittedFile.animation a => some a
    | _ => none)

/-- Source lines 253-299: reads `texture_size`, `textures`, `elements`
and `display` with their defaults, converts the elements into cubes of a
single `"main"` bone (dropping elements whose conversion returned
`None`, and the bone itself when no cube survives), and builds the
geometry document.  Also returns the `display` value for the later
animation step.  Any raise here happens before the geometry file is
written. -/
def buildGeometry (jm : Json) (output_name : String) : Except Unit (BedrockGeometry × Json) := do
  let texture_size ← pyGetD jm kTextureSize (Json.arr [Json.num 16, Json.num 16])
  let _textures ← pyGetD jm kTextures (Json.obj [])
  let elements ← pyGetD jm kElements (Json.arr [])
  let display ← pyGetD jm kDisplay (Json.obj [])
  let bones ←
    if pyTruthy elements then do
      let elems ← pyIter elements
      let cubes := elems.filterMap convert_element_to_cube
      pure (if cubes.isEmpty then ([] : List Bone) else [Bone.mk kMain [0, 0, 0] cubes])
    else
      pure ([] : List Bone)
  let tw ← pyIndexNat texture_size 0
  let th ← pyIndexNat texture_size 1
  pure (BedrockGeometry.mk (pGeometry ++ output_name) tw th 2 (5 / 2) [0, 3 / 4, 0] bones, display)

/-- `create_render_controller` (source lines 386-401). -/
def create_render_controller (output_name texture_name : String) : RenderController :=
  RenderController.mk (pController ++ output_name) (pGeometry ++ output_name) texture_name

/-- The per-context transform translation of `create_animation` (source
lines 416-428): copy `translation` to `position`, `rotation` and `scale`
verbatim, keeping only the keys present. -/
def transformBone (transform : Json) : Except Unit BoneAnim := do
  let hasT ← pyMem kTranslation transform
  let pos ← if hasT then (do pure (some (← pyIndexStr transform kTranslation))) else pure none
  let hasR ← pyMem kRotation transform
  let rot ← if hasR then (do pure (some (← pyIndexStr transform kRotation))) else pure none
  let hasS ← pyMem kScale transform
  let sc ← if hasS then (do pure (some (← pyIndexStr transform kScale))) else pure none
  pure (BoneAnim.mk pos rot sc)

def BoneAnim.nonempty (b : BoneAnim) : Bool :=
  b.position.isSome || b.rotation.isSome || b.scale.isSome

/-- Python `str.lower()` over the string's characters. -/
def pyLower (s : String) : String := String.mk (s.data.map Char.toLower)

/-- `create_animation` (source lines 403-432): one looping animation whose
bones are the display contexts (lower-cased) that contributed at least
one transform key.  Raises when `display` is not a dict (`.items()`), or
a transform entry mis-supports membership/indexing. -/
def create_animation (output_name : String) (display : Json) : Except Unit AnimationDoc :=
  match display with
  | Json.obj kvs => do
      let bones ← kvs.foldlM
        (fun acc p => do
          let bd ← transformBone p.2
          pure (if bd.nonempty then acc ++ [(pyLower p.1, bd)] else acc))
        []
      pure (AnimationDoc.mk (pAnimation ++ output_name) true bones)
  | _ => Except.error ()

/-- `create_default_animation` (source lines 479-506): the four fixed
hand-pose bones. -/
def create_default_animation (output_name : String) : AnimationDoc :=
  AnimationDoc.mk (pAnimation ++ output_name) true
    [(kTprh, BoneAnim.mk none (some (Json.arr [Json.num 0, Json.num (-90), Json.num 25])) none),
     (kTplh, BoneAnim.mk none (some (Json.arr [Json.num 0, Json.num 90, Json.num (-25)])) none),
     (kFprh, BoneAnim.mk none (some (Json.arr [Json.num 0, Json.num (-90), Json.num 25])) none),
     (kFplh, BoneAnim.mk none (some (Json.arr [Json.num 0, Json.num 90, Json.num (-25)])) none)]

/-- `create_attachable` (source lines 434-477).  The `base_item` argument
is accepted but unused, exactly as in the source. -/
def create_attachable (output_name texture_name _base_item : String) : AttachableDoc :=
  AttachableDoc.mk (pCustom ++ output_name) (pTexturesDir ++ texture_name)
    (pGeometry ++ output_name) (pAnimation ++ output_name) (pController ++ output_name) true

/-- The body of `convert_java_model_to_bedrock` (source lines 251-323)
after a successful `json.load`.  Returns the success flag and the list of
files actually written, in write order: the geometry and
render-controller files are on disk before the animation step runs, so
an exception inside that step leaves them emitted. -/
def convertModelDoc (jm : Json) (output_name texture_name base_item : String) :
    Bool × List EmittedFile :=
  match buildGeometry jm output_name with
  | Except.error _ => (false, [])
  | Except.ok (geo, display) =>
    let rc := create_render_controller output_name texture_name
    let animRes :=
      if pyTruthy display then create_animation output_name display
      else Except.ok (create_default_animation output_name)
    match animRes with
    | Except.error _ => (false, [EmittedFile.geo geo, EmittedFile.renderController rc])
    | Except.ok anim =>
      let att := create_attachable output_name texture_name base_item
      (true, [EmittedFile.geo geo, EmittedFile.renderController rc,
              EmittedFile.animation anim, EmittedFile.attachable att])

/-- `convert_java_model_to_bedrock` over the optional parsed document
(`none` when opening or parsing the model file raised). -/
def convert_java_model_to_bedrock (modelDoc : Option Json)
    (output_name texture_name base_item : String) : Bool × List EmittedFile :=
  match modelDoc with
  | none => (false, [])
  | some jm => convertModelDoc jm output_name texture_name base_item

/- ----------------------------------------------------------------- -/
/- Override resolution, texture extraction, pipeline driver           -/
/- (source lines 539-611).                                            -/
/- ----------------------------------------------------------------- -/

def kLayer0 : String := "layer0"

def kDigitZero : String := "0"

def kMissingTexture : String := "missing_texture"

def kMinecraft : String := "minecraft"

def pAssets : String := "assets/"

def pModelsSeg : String := "/models/"

def extJson : String := ".json"

def kColon : String := ":"

def kMinecraftColon : String := "minecraft:"

def kCmdSep : String := "_cmd"

def kUnderscore : String := "_"

def kSpace : String := " "

/-- Python `":" in s` for a single-character separator. -/
def hasColon (s : String) : Bool := s.data.contains ':'

/-- Everything after the first colon of `s` (Python
`s.split(":", 1)[1]`, only called when `":" in s`). -/
def afterFirstColon (s : String) : String :=
  String.mk ((s.data.dropWhile (fun c => c != ':')).tail)

/-- Everything before the first colon of `s` (Python
`s.split(":", 1)[0]`). -/
def beforeFirstColon (s : String) : String :=
  String.mk (s.data.takeWhile (fun c => c != ':'))

/-- The filesystem visible to the resolver: a path is readable to the
stored document, or present but unreadable/unparsable (`none`). -/
def FS : Type := List (String × Option Json)

def pathExists (fs : FS) (p : String) : Bool :=
  (List.find? (fun q => q.1 == p) fs).isSome

def readFile (fs : FS) (p : String) : Option Json :=
  (List.find? (fun q => q.1 == p) fs).bind (fun q => q.2)

/-- The namespaced-reference resolution of `find_model_file` (source
lines 581-591): split on the first colon, default the namespace to
`minecraft`, and build `assets/<namespace>/models/<path>.json`. -/
def resolveModelPath (model_ref : String) : String :=
  let nsPath :=
    if hasColon model_ref then (beforeFirstColon model_ref, afterFirstColon model_ref)
    else (kMinecraft, model_ref)
  pAssets ++ nsPath.1 ++ pModelsSeg ++ nsPath.2 ++ extJson

/-- `find_model_file`: the resolved path when it exists, else `None`. -/
def find_model_file (model_ref : String) (fs : FS) : Option String :=
  let p := resolveModelPath model_ref
  if pathExists fs p then some p else none

/-- The body of `extract_texture_name` inside its `try` (source lines
595-608): the `textures.get("layer0") or textures.get("0") or
next(iter(textures.values()), "")` chain (Python `or` falls through on
falsy values, i.e. on an empty string), then namespace stripping.  When
the chosen value is not a string, the membership test raises on
numbers/booleans/`None`, and `split` raises on lists/dicts that pass the
membership test; a list/dict without a colon is returned verbatim. -/
def extractExc (m : Json) : Except Unit Json := do
  let textures ← pyGetD m kTextures (Json.obj [])
  match textures with
  | Json.obj kvs =>
    let t1 := ((List.find? (fun p => p.1 == kLayer0) kvs).map (fun p => p.2)).getD Json.null
    let t2 := ((List.find? (fun p => p.1 == kDigitZero) kvs).map (fun p => p.2)).getD Json.null
    let fv := (kvs.head?.map (fun p => p.2)).getD (Json.str "")
    let texture_ref := if pyTruthy t1 then t1 else if pyTruthy t2 then t2 else fv
    match texture_ref with
    | Json.str s =>
      if hasColon s then pure (Json.str (afterFirstColon s)) else pure (Json.str s)
    | other => do
      let hasColon ← pyMem kColon other
      if hasColon then Except.error () else pure other
  | _ => Except.error ()

/-- `extract_texture_name` (source lines 593-611): `none` stands for a
model file that could not be opened or parsed; any exception yields the
sentinel `"missing_texture"`. -/
def extract_texture_name (modelDoc : Option Json) : Json :=
  match modelDoc with
  | none => Json.str kMissingTexture
  | some m =>
    match extractExc m with
    | Except.error _ => Json.str kMissingTexture
    | Except.ok j => j

/-- How the pipeline passes the extracted texture reference onward: the
source interpolates it into path strings; every well-formed pack yields a
string here, and no verified claim inspects the interpolation of a
non-string value. -/
def jsonFmt : Json → String
  | Json.str s => s
  | _ => ""

/-- One qualifying override discovered by `scan_custom_model_data`. -/
structure OverrideInfo where
  custom_model_data : Int
  model : String
  ns : Option String

/-- One successfully converted override, as appended to
`self.items_data` (source lines 563-570). -/
structure ConvertedItem where
  name : String
  base_item : String
  custom_model_data : Int
  texture : String
  ns : String

/-- The converter's mutable state touched by `process_custom_models`:
the accumulating item list, the missing-model set (kept as a
first-insertion-ordered list with set membership), and the files written
to the output pack. -/
structure PState where
  items_data : List ConvertedItem
  missing_models : List String
  emitted : List EmittedFile

/-- The body of the inner loop of `process_custom_models` (source lines
546-573) for a single override: resolve the model file; on success run
the conversion and record a `ConvertedItem` only when it succeeded; on a
missing file add the reference to the missing-model set. -/
def processOverride (fs : FS) (item_name : String) (st : PState) (mi : OverrideInfo) : PState :=
  let output_name := item_name ++ kCmdSep ++ toString mi.custom_model_data
  match find_model_file mi.model fs with
  | some path =>
    let texture_name := jsonFmt (extract_texture_name (readFile fs path))
    let res := convert_java_model_to_bedrock (readFile fs path) output_name texture_name item_name
    if res.1 then
      PState.mk
        (st.items_data ++
          [ConvertedItem.mk output_name item_name mi.custom_model_data texture_name
            (mi.ns.getD kMinecraft)])
        st.missing_models (st.emitted ++ res.2)
    else
      PState.mk st.items_data st.missing_models (st.emitted ++ res.2)
  | none =>
    PState.mk st.items_data
      (if mi.model ∈ st.missing_models then st.missing_models
       else st.missing_models ++ [mi.model])
      st.emitted

/-- `process_custom_models` (source lines 539-575): iterate the scanned
items and their override lists in order. -/
def process_custom_models (fs : FS) (cmd_items : List (String × List OverrideInfo))
    (st : PState) : PState :=
  cmd_items.foldl (fun s p => p.2.foldl (processOverride fs p.1) s) st

/- ----------------------------------------------------------------- -/
/- Mapping generation (source lines 613-642).                         -/
/- ----------------------------------------------------------------- -/

/-- One entry of the Geyser mapping document. -/
structure GeyserEntry where
  custom_model_data : String
  bedrock_identifier : String
  display_name : String
  texture : String
  geometry : String
deriving DecidableEq

/-- Python `str.title()` restricted to ASCII letters: a letter preceded
by a non-letter is uppercased, a letter preceded by a letter is
lowercased, other characters pass through and reset the word state. -/
def pyTitleAux : Bool → List Char → List Char
  | _, [] => []
  | prevCased, c :: cs =>
    let cased := c.isAlpha
    let c2 := if cased then (if prevCased then c.toLower else c.toUpper) else c
    c2 :: pyTitleAux cased cs

def pyTitle (s : String) : String :=
  String.mk (pyTitleAux false s.data)

/-- Python `s.replace("_", " ")` (single-character replacement). -/
def pyReplaceUnderscore (s : String) : String :=
  String.mk (s.data.map (fun c => if c == '_' then ' ' else c))

/-- The mapping entry built for one converted item (source lines
627-633). -/
def mkEntry (it : ConvertedItem) : GeyserEntry :=
  GeyserEntry.mk (toString it.custom_model_data) (pCustom ++ it.name)
    (pyTitle (pyReplaceUnderscore it.name)) it.texture (pGeometry ++ it.name)

/-- Appending one entry into the grouped mapping, mirroring the Python
dict: update an existing group in place, otherwise append a new group. -/
def addGrouped (m : List (String × List GeyserEntry)) (k : String) (e : GeyserEntry) :
    List (String × List GeyserEntry) :=
  if (List.find? (fun p => p.1 == k) m).isSome then
    m.map (fun p => if p.1 == k then (p.1, p.2 ++ [e]) else p)
  else
    m ++ [(k, [e])]

/-- `generate_geyser_mappings` (source lines 613-642): group the
converted items by `"minecraft:" + base_item` in discovery order. -/
def generate_geyser_mappings (items_data : List ConvertedItem) :
    List (String × List GeyserEntry) :=
  items_data.foldl (fun acc it => addGrouped acc (kMinecraftColon ++ it.base_item) (mkEntry it)) []

/-- First-occurrence deduplication (the key order of a Python dict under
repeated insertion). -/
def dedupFirst (l : List String) : List String :=
  l.foldl (fun acc k => if k ∈ acc then acc else acc ++ [k]) []

/- ----------------------------------------------------------------- -/
/- Helper lemmas.                                                     -/
/- ----------------------------------------------------------------- -/

theorem exceptBind_ok {α β : Type} {m : Except Unit α} {f : α → Except Unit β} {b : β}
    (h : (m >>= f) = Except.ok b) : ∃ a, m = Except.ok a ∧ f a = Except.ok b := by
  cases m with
  | error u => simp [Bind.bind, Except.bind] at h
  | ok a => exact ⟨a, rfl, by simpa [Bind.bind, Except.bind] using h⟩

theorem pyGetD_cons_self (k : String) (v : Json) (kvs : List (String × Json)) (d : Json) :
    pyGetD (Json.obj ((k, v) :: kvs)) k d = Except.ok v := by
  simp [pyGetD]

theorem pyGetD_cons_ne (k k2 : String) (v : Json) (kvs : List (String × Json)) (d : Json)
    (h : k2 ≠ k) :
    pyGetD (Json.obj ((k, v) :: kvs)) k2 d = pyGetD (Json.obj kvs) k2 d := by
  simp only [pyGetD, List.find?]
  have hb : (k == k2) = false := by simpa using fun he => h he.symm
  rw [hb]

theorem pyGetD_miss (k : String) (kvs : List (String × Json)) (d : Json)
    (h : ∀ p ∈ kvs, p.1 ≠ k) : pyGetD (Json.obj kvs) k d = Except.ok d := by
  simp only [pyGetD]
  rw [List.find?_eq_none.mpr]
  · rfl
  · intro p hp
    simpa using h p hp

theorem elemPre_rotJ {e : Json} {p : PreCube} (h : elemPre e = Except.ok p) :
    pyGetD e kRotation (Json.obj []) = Except.ok p.rotJ := by
  unfold elemPre at h
  obtain ⟨fromv, h1, h⟩ := exceptBind_ok h
  obtain ⟨tov, h2, h⟩ := exceptBind_ok h
  obtain ⟨facesv, h3, h⟩ := exceptBind_ok h
  obtain ⟨rotv, h4, h⟩ := exceptBind_ok h
  obtain ⟨t0, h5, h⟩ := exceptBind_ok h
  obtain ⟨f1, h6, h⟩ := exceptBind_ok h
  obtain ⟨f2, h7, h⟩ := exceptBind_ok h
  obtain ⟨f0, h8, h⟩ := exceptBind_ok h
  obtain ⟨f1n, h9, h⟩ := exceptBind_ok h
  obtain ⟨t1, h10, h⟩ := exceptBind_ok h
  obtain ⟨t2, h11, h⟩ := exceptBind_ok h
  obtain ⟨uv, h12, h⟩ := exceptBind_ok h
  simp only [pure, Except.pure, Except.ok.injEq] at h
  rw [h4, ← h]

theorem convertElement_decomp {e : Json} {cu : Cube}
    (h : convertElementExc e = Except.ok cu) :
    ∃ p pr, elemPre e = Except.ok p ∧ rotPart p.rotJ = Except.ok pr ∧
      cu = Cube.mk p.origin p.size p.uv pr.1 pr.2 := by
  unfold convertElementExc at h
  obtain ⟨p, h1, h⟩ := exceptBind_ok h
  obtain ⟨pr, h2, h⟩ := exceptBind_ok h
  simp only [pure, Except.pure, Except.ok.injEq] at h
  exact ⟨p, pr, h1, h2, h.symm⟩

theorem rotPart_falsy {r : Json} (h : pyTruthy r = false) :
    rotPart r = Except.ok (none, none) := by
  simp [rotPart, h, pure, Except.pure]

theorem rotPart_truthy_shape {r : Json} {pr : Option (List Json) × Option (List Json)}
    (h : pyTruthy r = true) (h2 : rotPart r = Except.ok pr) :
    ∃ pv rot, pr = (some pv, rot) := by
  unfold rotPart at h2
  rw [h] at h2
  simp only [if_true] at h2
  obtain ⟨pv, g1, h2⟩ := exceptBind_ok h2
  obtain ⟨p0, g2, h2⟩ := exceptBind_ok h2
  obtain ⟨p1, g3, h2⟩ := exceptBind_ok h2
  obtain ⟨p2, g4, h2⟩ := exceptBind_ok h2
  obtain ⟨angle, g5, h2⟩ := exceptBind_ok h2
  obtain ⟨axis, g6, h2⟩ := exceptBind_ok h2
  split at h2
  · obtain ⟨a, g7, h2⟩ := exceptBind_ok h2
    obtain ⟨y, g8, h2⟩ := exceptBind_ok h2
    simp only [pure, Except.pure, Except.ok.injEq] at h2
    exact ⟨_, _, h2.symm⟩
  · split at h2
    · obtain ⟨a, g7, h2⟩ := exceptBind_ok h2
      obtain ⟨y, g8, h2⟩ := exceptBind_ok h2
      simp only [pure, Except.pure, Except.ok.injEq] at h2
      exact ⟨_, _, h2.symm⟩
    · split at h2
      · obtain ⟨y, g8, h2⟩ := exceptBind_ok h2
        simp only [pure, Except.pure, Except.ok.injEq] at h2
        exact ⟨_, _, h2.symm⟩
      · obtain ⟨y, g8, h2⟩ := exceptBind_ok h2
        simp only [pure, Except.pure, Except.ok.injEq] at h2
        exact ⟨_, _, h2.symm⟩

theorem bindOk {α β : Type} (a : α) (f : α → Except Unit β) :
    (Except.ok a >>= f) = f a := rfl

theorem bindErr {α β : Type} (f : α → Except Unit β) :
    ((Except.error () : Except Unit α) >>= f) = Except.error () := rfl

theorem pyGetD_mkElement_from (a b c d e f : ℚ) (faces rot : Json) :
    pyGetD (mkElement a b c d e f faces rot) kFrom (arr3 0 0 0) = Except.ok (arr3 a b c) := rfl

theorem pyGetD_mkElement_to (a b c d e f : ℚ) (faces rot : Json) :
    pyGetD (mkElement a b c d e f faces rot) kTo (arr3 1 1 1) = Except.ok (arr3 d e f) := rfl

theorem pyGetD_mkElement_faces (a b c d e f : ℚ) (faces rot : Json) :
    pyGetD (mkElement a b c d e f faces rot) kFaces (Json.obj []) = Except.ok faces := rfl

theorem pyGetD_mkElement_rotation (a b c d e f : ℚ) (faces rot : Json) :
    pyGetD (mkElement a b c d e f faces rot) kRotation (Json.obj []) = Except.ok rot := rfl

theorem getNumAt_arr3_0 (x y z : ℚ) : getNumAt (arr3 x y z) 0 = Except.ok x := rfl

theorem getNumAt_arr3_1 (x y z : ℚ) : getNumAt (arr3 x y z) 1 = Except.ok y := rfl

theorem getNumAt_arr3_2 (x y z : ℚ) : getNumAt (arr3 x y z) 2 = Except.ok z := rfl

theorem pyIndexNat_arr3_1 (x y z : ℚ) : pyIndexNat (arr3 x y z) 1 = Except.ok (Json.num y) := rfl

theorem elemPre_mkElement (a b c d e f : ℚ) (faces rot : Json) :
    elemPre (mkElement a b c d e f faces rot) =
      match facesUV faces with
      | Except.error u => Except.error u
      | Except.ok uv =>
        Except.ok (PreCube.mk [Json.num (-d + 8), Json.num b, Json.num (c - 8)]
          [d - a, e - b, f - c] uv rot) := by
  unfold elemPre
  simp only [pyGetD_mkElement_from, pyGetD_mkElement_to, pyGetD_mkElement_faces,
    pyGetD_mkElement_rotation, getNumAt_arr3_0, getNumAt_arr3_1, getNumAt_arr3_2,
    pyIndexNat_arr3_1, bindOk]
  cases hf : facesUV faces with
  | error u => cases u; rw [bindErr]
  | ok uv => rw [bindOk]; rfl

theorem convertElementExc_mkElement (a b c d e f : ℚ) (faces rot : Json) :
    convertElementExc (mkElement a b c d e f faces rot) =
      match facesUV faces with
      | Except.error u => Except.error u
      | Except.ok uv =>
        match rotPart rot with
        | Except.error u => Except.error u
        | Except.ok pr =>
          Except.ok (Cube.mk [Json.num (-d + 8), Json.num b, Json.num (c - 8)]
            [d - a, e - b, f - c] uv pr.1 pr.2) := by
  unfold convertElementExc
  rw [elemPre_mkElement]
  cases hf : facesUV faces with
  | error u => cases u; rw [bindErr]
  | ok uv =>
    rw [bindOk]
    cases hr : rotPart rot with
    | error u => cases u; rw [bindErr]
    | ok pr => rw [bindOk]; rfl

/-- A canonical rotation entry, matching the data model's
`{origin, angle, axis}`. -/
def mkRotation (ox oy oz ang : ℚ) (ax : String) : Json :=
  Json.obj [(kOrigin, arr3 ox oy oz), (kAngle, Json.num ang), (kAxis, Json.str ax)]

theorem rotPart_canonical (ox oy oz ang : ℚ) (ax : String) :
    rotPart (mkRotation ox oy oz ang ax) =
      Except.ok (some [Json.num (-ox + 8), Json.num oy, Json.num (oz - 8)],
        if ax = kAxisX then
          (if ang = 0 then none else some [Json.num (-ang), Json.num 0, Json.num 0])
        else if ax = kAxisY then
          (if ang = 0 then none else some [Json.num 0, Json.num (-ang), Json.num 0])
        else if ax = kAxisZ then
          (if ang = 0 then none else some [Json.num 0, Json.num 0, Json.num ang])
        else none) := by
  have hT : pyTruthy (mkRotation ox oy oz ang ax) = true := rfl
  have hO : pyGetD (mkRotation ox oy oz ang ax) kOrigin (arr3 8 8 8) =
      Except.ok (arr3 ox oy oz) := rfl
  have hA : pyGetD (mkRotation ox oy oz ang ax) kAngle (Json.num 0) =
      Except.ok (Json.num ang) := rfl
  have hX : pyGetD (mkRotation ox oy oz ang ax) kAxis (Json.str kAxisY) =
      Except.ok (Json.str ax) := rfl
  unfold rotPart
  rw [hT]
  simp only [if_true, hO, hA, hX, getNumAt_arr3_0, getNumAt_arr3_1, getNumAt_arr3_2,
    pyIndexNat_arr3_1, bindOk, Json.eqStr, beq_iff_eq]
  by_cases h1 : ax = kAxisX
  · by_cases h0 : ang = 0 <;>
      simp [h1, h0, asNum, pure, Except.pure, pyTruthy, bindOk, neg_eq_zero,
        kAxisX, kAxisY, kAxisZ]
  · by_cases h2 : ax = kAxisY
    · by_cases h0 : ang = 0 <;>
        simp [h1, h2, h0, asNum, pure, Except.pure, pyTruthy, bindOk, neg_eq_zero,
          kAxisX, kAxisY, kAxisZ]
    · by_cases h3 : ax = kAxisZ
      · by_cases h0 : ang = 0 <;>
          simp [h1, h2, h3, h0, asNum, pure, Except.pure, pyTruthy, bindOk, neg_eq_zero,
            kAxisX, kAxisY, kAxisZ]
      · simp [h1, h2, h3, pure, Except.pure, pyTruthy, bindOk]

/-- A canonical face entry: a face name with a well-typed
`uv=[u0,v0,u1,v1]`. -/
structure FaceSpec where
  name : String
  u0 : ℚ
  v0 : ℚ
  u1 : ℚ
  v1 : ℚ

/-- The JSON form of a canonical face entry. -/
def mkFaceJson (q : FaceSpec) : String × Json :=
  (q.name, Json.obj [(kUv, Json.arr [Json.num q.u0, Json.num q.v0, Json.num q.u1, Json.num q.v1])])

/-- The cube UV entry `convert_element_to_cube` produces for a canonical
face entry. -/
def mkFaceUV (q : FaceSpec) : String × FaceUV :=
  (q.name, FaceUV.mk [Json.num q.u0, Json.num q.v0] [q.u1 - q.u0, q.v1 - q.v0])

theorem faceStep_canonical (acc : List (String × FaceUV)) (q : FaceSpec) :
    faceStep acc (mkFaceJson q) = Except.ok (acc ++ [mkFaceUV q]) := rfl

theorem facesUV_canonical (fs : List FaceSpec) :
    facesUV (Json.obj (fs.map mkFaceJson)) = Except.ok (fs.map mkFaceUV) := by
  have aux : ∀ (fs : List FaceSpec) (acc : List (String × FaceUV)),
      List.foldlM faceStep acc (fs.map mkFaceJson) = Except.ok (acc ++ fs.map mkFaceUV) := by
    intro fs
    induction fs with
    | nil => intro acc; simp [List.foldlM, pure, Except.pure]
    | cons q fs ih =>
      intro acc
      simp only [List.map_cons, List.foldlM_cons, faceStep_canonical, bindOk, ih,
        List.append_assoc, List.singleton_append]
  simpa using aux fs []

/- ----------------------------------------------------------------- -/
/- Claims C1, C2, C3: convert_element_to_cube.                        -/
/- ----------------------------------------------------------------- -/

/-- Claim C1: for every Java element with `from=[a,b,c]` and `to=[d,e,f]`,
`convert_element_to_cube` returns a cube with origin `[-d+8, b, c-8]` and
size `[d-a, e-b, f-c]`: Y is copied unchanged, X is negated and offset by
8, Z is offset by -8.  Stated for every faces/rotation payload whenever a
cube is returned, plus the face-free, rotation-free instance where the
cube is returned unconditionally. -/
theorem claim_C1 (a b c d e f : ℚ) :
    (∀ (faces rot : Json) (cu : Cube),
        convert_element_to_cube (mkElement a b c d e f faces rot) = some cu →
        cu.origin = [Json.num (-d + 8), Json.num b, Json.num (c - 8)] ∧
        cu.size = [d - a, e - b, f - c]) ∧
    convert_element_to_cube (mkElement a b c d e f (Json.obj []) Json.null) =
      some (Cube.mk [Json.num (-d + 8), Json.num b, Json.num (c - 8)]
        [d - a, e - b, f - c] [] none none) := by
  constructor
  · intro faces rot cu h
    unfold convert_element_to_cube at h
    rw [convertElementExc_mkElement] at h
    cases hf : facesUV faces with
    | error u => rw [hf] at h; cases u; simp [Except.toOption] at h
    | ok uv =>
      rw [hf] at h
      cases hr : rotPart rot with
      | error u => rw [hr] at h; cases u; simp [Except.toOption] at h
      | ok pr =>
        rw [hr] at h
        simp only [Except.toOption, Option.some.injEq] at h
        subst h
        exact ⟨rfl, rfl⟩
  · rfl

/-- Witness for C1 at `from=[1,2,3]`, `to=[4,5,6]`. -/
theorem claim_C1_witness :
    (Cube.mk [Json.num (-4 + 8), Json.num 2, Json.num (3 - 8)]
        [4 - 1, 5 - 2, 6 - 3] [] none none).origin =
      [Json.num (-4 + 8), Json.num 2, Json.num (3 - 8)] ∧
    (Cube.mk [Json.num (-4 + 8), Json.num 2, Json.num (3 - 8)]
        [4 - 1, 5 - 2, 6 - 3] [] none none).size = [4 - 1, 5 - 2, 6 - 3] :=
  (claim_C1 1 2 3 4 5 6).1 (Json.obj []) Json.null _ rfl

/-- Claim C2: for every element carrying a rotation
`{origin:[ox,oy,oz], angle, axis}`, the cube's pivot is
`[-ox+8, oy, oz-8]`; the rotation vector is `[-angle,0,0]` for axis `x`,
`[0,-angle,0]` for axis `y`, `[0,0,angle]` for axis `z`; and an all-zero
vector (e.g. `angle = 0`) carries no rotation key. -/
theorem claim_C2 (a b c d e f ox oy oz ang : ℚ) (ax : String) (faces : Json) (cu : Cube)
    (h : convert_element_to_cube
        (mkElement a b c d e f faces (mkRotation ox oy oz ang ax)) = some cu) :
    cu.pivot = some [Json.num (-ox + 8), Json.num oy, Json.num (oz - 8)] ∧
    (ax = kAxisX → cu.rotation =
      if ang = 0 then none else some [Json.num (-ang), Json.num 0, Json.num 0]) ∧
    (ax = kAxisY → cu.rotation =
      if ang = 0 then none else some [Json.num 0, Json.num (-ang), Json.num 0]) ∧
    (ax = kAxisZ → cu.rotation =
      if ang = 0 then none else some [Json.num 0, Json.num 0, Json.num ang]) ∧
    (ang = 0 → cu.rotation = none) := by
  unfold convert_element_to_cube at h
  rw [convertElementExc_mkElement] at h
  cases hf : facesUV faces with
  | error u => rw [hf] at h; cases u; simp [Except.toOption] at h
  | ok uv =>
    rw [hf] at h
    rw [rotPart_canonical] at h
    simp only [Except.toOption, Option.some.injEq] at h
    subst h
    refine ⟨rfl, ?_, ?_, ?_, ?_⟩
    · intro hx
      simp [hx]
    · intro hy
      simp [hy, kAxisX, kAxisY]
    · intro hz
      simp [hz, kAxisX, kAxisY, kAxisZ]
    · intro h0
      simp [h0]

/-- Witness for C2: axis `x`, angle 45, rotation origin `[1,2,3]`. -/
theorem claim_C2_witness :
    (Cube.mk [Json.num (-1 + 8), Json.num 0, Json.num (0 - 8)] [1 - 0, 1 - 0, 1 - 0] []
        (some [Json.num (-1 + 8), Json.num 2, Json.num (3 - 8)])
        (some [Json.num (-45), Json.num 0, Json.num 0])).pivot =
      some [Json.num (-1 + 8), Json.num 2, Json.num (3 - 8)] ∧
    (Cube.mk [Json.num (-1 + 8), Json.num 0, Json.num (0 - 8)] [1 - 0, 1 - 0, 1 - 0] []
        (some [Json.num (-1 + 8), Json.num 2, Json.num (3 - 8)])
        (some [Json.num (-45), Json.num 0, Json.num 0])).rotation =
      some [Json.num (-45), Json.num 0, Json.num 0] := by
  have h := claim_C2 0 0 0 1 1 1 1 2 3 45 kAxisX (Json.obj []) _ rfl
  exact ⟨h.1, (h.2.1 rfl).trans (if_neg (by norm_num))⟩

def kNorth : String := "north"

/-- Claim C3: every face present in the element's faces map with
`uv=[u0,v0,u1,v1]` yields a cube UV entry `{uv:[u0,v0],
uv_size:[u1-u0,v1-v0]}` under the same face name, and faces absent from
the source produce no entry (the translated map's names are exactly the
source's face names). -/
theorem claim_C3 (a b c d e f : ℚ) (fs : List FaceSpec)
    (hnd : (fs.map (fun q => q.name)).Nodup) :
    convert_element_to_cube (mkElement a b c d e f (Json.obj (fs.map mkFaceJson)) Json.null) =
      some (Cube.mk [Json.num (-d + 8), Json.num b, Json.num (c - 8)]
        [d - a, e - b, f - c] (fs.map mkFaceUV) none none) ∧
    (∀ n : String, (∃ fuv, (n, fuv) ∈ fs.map mkFaceUV) ↔ n ∈ fs.map (fun q => q.name)) := by
  constructor
  · unfold convert_element_to_cube
    rw [convertElementExc_mkElement, facesUV_canonical]
    rw [rotPart_falsy (r := Json.null) rfl]
    rfl
  · intro n
    constructor
    · rintro ⟨fuv, hm⟩
      rw [List.mem_map] at hm
      obtain ⟨q, hq, he⟩ := hm
      rw [List.mem_map]
      refine ⟨q, hq, ?_⟩
      have hn : (mkFaceUV q).1 = n := by rw [he]
      simpa [mkFaceUV] using hn
    · intro hn
      rw [List.mem_map] at hn
      obtain ⟨q, hq, he⟩ := hn
      exact ⟨FaceUV.mk [Json.num q.u0, Json.num q.v0] [q.u1 - q.u0, q.v1 - q.v0],
        List.mem_map.mpr ⟨q, hq, by simp [mkFaceUV, he]⟩⟩

/-- Witness for C3: the spec's example face `uv=[2,4,10,12]` becomes
`uv=[2,4]`, `uv_size=[8,8]`. -/
theorem claim_C3_witness :
    convert_element_to_cube (mkElement 0 0 0 16 16 16
        (Json.obj [mkFaceJson (FaceSpec.mk kNorth 2 4 10 12)]) Json.null) =
      some (Cube.mk [Json.num (-16 + 8), Json.num 0, Json.num (0 - 8)]
        [16 - 0, 16 - 0, 16 - 0]
        [(kNorth, FaceUV.mk [Json.num 2, Json.num 4] [10 - 2, 12 - 4])] none none) :=
  (claim_C3 0 0 0 16 16 16 [FaceSpec.mk kNorth 2 4 10 12] (by simp)).1

/- ----------------------------------------------------------------- -/
/- Claims C9, C10: pivot on degenerate rotation, defaults, None.      -/
/- ----------------------------------------------------------------- -/

/-- Claim C9: whenever the element's rotation entry is non-empty (truthy)
and a cube is returned, the cube carries a pivot key, even when the
rotation key itself was suppressed; with an absent/empty rotation entry
the cube carries neither pivot nor rotation, so a degenerate rotation
still alters the output. -/
theorem claim_C9 :
    (∀ (e r : Json) (cu : Cube),
        pyGetD e kRotation (Json.obj []) = Except.ok r → pyTruthy r = true →
        convert_element_to_cube e = some cu → cu.pivot.isSome = true) ∧
    (∀ (e r : Json) (cu : Cube),
        pyGetD e kRotation (Json.obj []) = Except.ok r → pyTruthy r = false →
        convert_element_to_cube e = some cu → cu.pivot = none ∧ cu.rotation = none) := by
  constructor
  · intro e r cu hget htr h
    unfold convert_element_to_cube at h
    cases hc : convertElementExc e with
    | error u => rw [hc] at h; simp [Except.toOption] at h
    | ok cu2 =>
      rw [hc] at h
      simp only [Except.toOption, Option.some.injEq] at h
      subst h
      obtain ⟨p, pr, h1, h2, h3⟩ := convertElement_decomp hc
      have hrj : r = p.rotJ := Except.ok.inj (hget.symm.trans (elemPre_rotJ h1))
      rw [hrj] at htr
      obtain ⟨pv, rot0, hpr⟩ := rotPart_truthy_shape htr h2
      rw [h3, hpr]
      rfl
  · intro e r cu hget htr h
    unfold convert_element_to_cube at h
    cases hc : convertElementExc e with
    | error u => rw [hc] at h; simp [Except.toOption] at h
    | ok cu2 =>
      rw [hc] at h
      simp only [Except.toOption, Option.some.injEq] at h
      subst h
      obtain ⟨p, pr, h1, h2, h3⟩ := convertElement_decomp hc
      have hrj : r = p.rotJ := Except.ok.inj (hget.symm.trans (elemPre_rotJ h1))
      rw [hrj] at htr
      have hpr : pr = (none, none) :=
        Except.ok.inj (h2.symm.trans (rotPart_falsy htr))
      rw [h3, hpr]
      exact ⟨rfl, rfl⟩

/-- Witness for C9: an element whose rotation entry is the degenerate
`{angle: 0}` still gets a pivot (from the default origin `[8,8,8]`),
while its rotation key is suppressed. -/
theorem claim_C9_witness :
    (Cube.mk [Json.num (-1 + 8), Json.num 0, Json.num (0 - 8)] [1 - 0, 1 - 0, 1 - 0] []
        (some [Json.num (-8 + 8), Json.num 8, Json.num (8 - 8)]) none).pivot.isSome = true :=
  claim_C9.1 (Json.obj [(kRotation, Json.obj [(kAngle, Json.num 0)])])
    (Json.obj [(kAngle, Json.num 0)]) _ rfl rfl rfl

/-- Claim C10: an element missing `from` or `to` is not dropped; the
defaults `from=[0,0,0]`, `to=[1,1,1]` are substituted (and a rotation
entry missing `origin` or `axis` gets the defaults `origin=[8,8,8]`,
`axis="y"`), the empty element converts to a cube rather than `None`,
and `None` arises exactly when the conversion body raised. -/
theorem claim_C10 :
    (∀ kvs : List (String × Json), (∀ p ∈ kvs, p.1 ≠ kFrom) →
        convert_element_to_cube (Json.obj kvs) =
          convert_element_to_cube (Json.obj ((kFrom, arr3 0 0 0) :: kvs))) ∧
    (∀ kvs : List (String × Json), (∀ p ∈ kvs, p.1 ≠ kTo) →
        convert_element_to_cube (Json.obj kvs) =
          convert_element_to_cube (Json.obj ((kTo, arr3 1 1 1) :: kvs))) ∧
    (∀ rkvs : List (String × Json), rkvs ≠ [] → (∀ p ∈ rkvs, p.1 ≠ kOrigin) →
        rotPart (Json.obj rkvs) = rotPart (Json.obj ((kOrigin, arr3 8 8 8) :: rkvs))) ∧
    (∀ rkvs : List (String × Json), rkvs ≠ [] → (∀ p ∈ rkvs, p.1 ≠ kAxis) →
        rotPart (Json.obj rkvs) = rotPart (Json.obj ((kAxis, Json.str kAxisY) :: rkvs))) ∧
    convert_element_to_cube (Json.obj []) =
      some (Cube.mk [Json.num (-1 + 8), Json.num 0, Json.num (0 - 8)]
        [1 - 0, 1 - 0, 1 - 0] [] none none) ∧
    (∀ e : Json, convert_element_to_cube e = none ↔ convertElementExc e = Except.error ()) := by
  refine ⟨?_, ?_, ?_, ?_, rfl, ?_⟩
  · intro kvs h
    have h1 := pyGetD_cons_self kFrom (arr3 0 0 0) kvs (arr3 0 0 0)
    have h2 := pyGetD_miss kFrom kvs (arr3 0 0 0) h
    have h3 := pyGetD_cons_ne kFrom kTo (arr3 0 0 0) kvs (arr3 1 1 1) (by decide)
    have h4 := pyGetD_cons_ne kFrom kFaces (arr3 0 0 0) kvs (Json.obj []) (by decide)
    have h5 := pyGetD_cons_ne kFrom kRotation (arr3 0 0 0) kvs (Json.obj []) (by decide)
    unfold convert_element_to_cube convertElementExc elemPre
    simp only [h1, h2, h3, h4, h5]
  · intro kvs h
    have h1 := pyGetD_cons_self kTo (arr3 1 1 1) kvs (arr3 1 1 1)
    have h2 := pyGetD_miss kTo kvs (arr3 1 1 1) h
    have h3 := pyGetD_cons_ne kTo kFrom (arr3 1 1 1) kvs (arr3 0 0 0) (by decide)
    have h4 := pyGetD_cons_ne kTo kFaces (arr3 1 1 1) kvs (Json.obj []) (by decide)
    have h5 := pyGetD_cons_ne kTo kRotation (arr3 1 1 1) kvs (Json.obj []) (by decide)
    unfold convert_element_to_cube convertElementExc elemPre
    simp only [h1, h2, h3, h4, h5]
  · intro rkvs hne h
    have ht1 : pyTruthy (Json.obj rkvs) = true := by
      cases rkvs with
      | nil => exact absurd rfl hne
      | cons a l => rfl
    have ht2 : pyTruthy (Json.obj ((kOrigin, arr3 8 8 8) :: rkvs)) = true := rfl
    have h1 := pyGetD_cons_self kOrigin (arr3 8 8 8) rkvs (arr3 8 8 8)
    have h2 := pyGetD_miss kOrigin rkvs (arr3 8 8 8) h
    have h3 := pyGetD_cons_ne kOrigin kAngle (arr3 8 8 8) rkvs (Json.num 0) (by decide)
    have h4 := pyGetD_cons_ne kOrigin kAxis (arr3 8 8 8) rkvs (Json.str kAxisY) (by decide)
    unfold rotPart
    simp only [ht1, ht2, if_true, h1, h2, h3, h4]
  · intro rkvs hne h
    have ht1 : pyTruthy (Json.obj rkvs) = true := by
      cases rkvs with
      | nil => exact absurd rfl hne
      | cons a l => rfl
    have ht2 : pyTruthy (Json.obj ((kAxis, Json.str kAxisY) :: rkvs)) = true := rfl
    have h1 := pyGetD_cons_self kAxis (Json.str kAxisY) rkvs (Json.str kAxisY)
    have h2 := pyGetD_miss kAxis rkvs (Json.str kAxisY) h
    have h3 := pyGetD_cons_ne kAxis kOrigin (Json.str kAxisY) rkvs (arr3 8 8 8) (by decide)
    have h4 := pyGetD_cons_ne kAxis kAngle (Json.str kAxisY) rkvs (Json.num 0) (by decide)
    unfold rotPart
    simp only [ht1, ht2, if_true, h1, h2, h3, h4]
  · intro e
    unfold convert_element_to_cube
    cases hc : convertElementExc e with
    | error u => cases u; simp [Except.toOption]
    | ok cu => simp [Except.toOption]

/-- Witness for C10: an element that has only a `to` field behaves
exactly like the same element with the default `from=[0,0,0]` added. -/
theorem claim_C10_witness :
    convert_element_to_cube (Json.obj [(kTo, arr3 4 4 4)]) =
      convert_element_to_cube (Json.obj [(kFrom, arr3 0 0 0), (kTo, arr3 4 4 4)]) :=
  claim_C10.1 [(kTo, arr3 4 4 4)] (by decide)

theorem buildGeometry_display {jm : Json} {n : String} {g : BedrockGeometry} {d : Json}
    (h : buildGeometry jm n = Except.ok (g, d)) :
    pyGetD jm kDisplay (Json.obj []) = Except.ok d := by
  unfold buildGeometry at h
  obtain ⟨ts, h1, h⟩ := exceptBind_ok h
  obtain ⟨tx, h2, h⟩ := exceptBind_ok h
  obtain ⟨el, h3, h⟩ := exceptBind_ok h
  obtain ⟨dp, h4, h⟩ := exceptBind_ok h
  rw [h4]
  split at h
  · obtain ⟨elems, h5, h⟩ := exceptBind_ok h
    obtain ⟨bones, h6, h⟩ := exceptBind_ok h
    obtain ⟨tw, h7, h⟩ := exceptBind_ok h
    obtain ⟨th, h8, h⟩ := exceptBind_ok h
    simp only [pure, Except.pure, Except.ok.injEq, Prod.mk.injEq] at h
    rw [h.2]
  · obtain ⟨bones, h6, h⟩ := exceptBind_ok h
    obtain ⟨tw, h7, h⟩ := exceptBind_ok h
    obtain ⟨th, h8, h⟩ := exceptBind_ok h
    simp only [pure, Except.pure, Except.ok.injEq, Prod.mk.injEq] at h
    rw [h.2]

/- ----------------------------------------------------------------- -/
/- Claims C4, C5: animation synthesis and failure behaviour.          -/
/- ----------------------------------------------------------------- -/

def nSample : String := "sample"

def tSample : String := "tex"

def bSample : String := "stick"

/-- The four fixed hand-pose bones of the default animation. -/
def defaultBones : List (String × BoneAnim) :=
  [(kTprh, BoneAnim.mk none (some (Json.arr [Json.num 0, Json.num (-90), Json.num 25])) none),
   (kTplh, BoneAnim.mk none (some (Json.arr [Json.num 0, Json.num 90, Json.num (-25)])) none),
   (kFprh, BoneAnim.mk none (some (Json.arr [Json.num 0, Json.num (-90), Json.num 25])) none),
   (kFplh, BoneAnim.mk none (some (Json.arr [Json.num 0, Json.num 90, Json.num (-25)])) none)]

/-- The model of the claim's concrete second scenario:
`display={"firstperson_righthand":{"rotation":[1,2,3]}}`. -/
def dispModel : Json :=
  Json.obj [(kDisplay, Json.obj
    [(kFprh, Json.obj [(kRotation, Json.arr [Json.num 1, Json.num 2, Json.num 3])])])]

/-- Claim C4: a converted model whose display map is empty or absent
emits exactly the looping default animation with the four fixed hand
bones (`[0,-90,25]` right, `[0,90,-25]` left); a model with
`display={"firstperson_righthand":{"rotation":[1,2,3]}}` emits an
animation with exactly that one bone, rotation `[1,2,3]`, and no
position or scale keys. -/
theorem convert_some (jm : Json) (n t b : String) :
    convert_java_model_to_bedrock (some jm) n t b = convertModelDoc jm n t b := rfl

theorem claim_C4 :
    (∀ (jm d : Json) (n t b : String),
        pyGetD jm kDisplay (Json.obj []) = Except.ok d → pyTruthy d = false →
        (∀ a, EmittedFile.animation a ∈ (convert_java_model_to_bedrock (some jm) n t b).2 →
            a = AnimationDoc.mk (pAnimation ++ n) true defaultBones) ∧
        ((convert_java_model_to_bedrock (some jm) n t b).1 = true →
            EmittedFile.animation (AnimationDoc.mk (pAnimation ++ n) true defaultBones) ∈
              (convert_java_model_to_bedrock (some jm) n t b).2)) ∧
    ((convert_java_model_to_bedrock (some dispModel) nSample tSample bSample).1 = true ∧
      animationsOf (convert_java_model_to_bedrock (some dispModel) nSample tSample bSample).2 =
        [AnimationDoc.mk (pAnimation ++ nSample) true
          [(kFprh, BoneAnim.mk none (some (Json.arr [Json.num 1, Json.num 2, Json.num 3])) none)]]) := by
  constructor
  · intro jm d n t b hget htr
    simp only [convert_some]
    cases hb : buildGeometry jm n with
    | error u =>
      have hconv : convertModelDoc jm n t b = (false, []) := by
        unfold convertModelDoc
        rw [hb]
      rw [hconv]
      constructor
      · intro a ha
        simp at ha
      · intro hs
        simp at hs
    | ok gd =>
      obtain ⟨g, d2⟩ := gd
      have hd2 : d2 = d := Except.ok.inj ((buildGeometry_display hb).symm.trans hget)
      have hconv : convertModelDoc jm n t b =
          (true, [EmittedFile.geo g,
                  EmittedFile.renderController (create_render_controller n t),
                  EmittedFile.animation (create_default_animation n),
                  EmittedFile.attachable (create_attachable n t b)]) := by
        unfold convertModelDoc
        rw [hb]
        simp only [hd2, htr, Bool.false_eq_true, if_false]
      rw [hconv]
      constructor
      · intro a ha
        simp only [List.mem_cons, List.not_mem_nil, or_false] at ha
        rcases ha with ha | ha | ha | ha <;>
          simp_all [create_default_animation, defaultBones]
      · intro _
        simp [create_default_animation, defaultBones]
  · exact ⟨rfl, rfl⟩

/-- Witness for C4: a model with no display map at all emits the default
animation. -/
theorem claim_C4_witness :
    EmittedFile.animation (AnimationDoc.mk (pAnimation ++ nSample) true defaultBones) ∈
      (convert_java_model_to_bedrock (some (Json.obj [])) nSample tSample bSample).2 :=
  ((claim_C4.1 (Json.obj []) (Json.obj []) nSample tSample bSample rfl rfl).2) rfl

/-- Counterexample to claim C5 as stated: a model whose `display` value is
the (truthy, non-dict) number 1 makes the conversion raise inside the
animation step and return failure, yet by then the geometry and
render-controller files are already written: two files are emitted, one
of them a geometry file. -/
theorem claim_C5_counterexample :
    (convert_java_model_to_bedrock (some (Json.obj [(kDisplay, Json.num 1)]))
        nSample tSample bSample).1 = false ∧
    ((convert_java_model_to_bedrock (some (Json.obj [(kDisplay, Json.num 1)]))
        nSample tSample bSample).2.any EmittedFile.isGeoFile) = true ∧
    ((convert_java_model_to_bedrock (some (Json.obj [(kDisplay, Json.num 1)]))
        nSample tSample bSample).2.length) = 2 :=
  ⟨rfl, rfl, rfl⟩

/-- Claim C5 (amended): a model whose document cannot be read emits
nothing and fails; when the conversion fails after the document was read,
no animation or attachable file is ever among the emitted files (only the
geometry and render controller written before the raise can be); in every
failure case no `ConvertedItem` is recorded and the missing-model set is
untouched; and processing always continues with the next override. -/
theorem claim_C5 :
    (∀ n t b : String, convert_java_model_to_bedrock none n t b = (false, [])) ∧
    (∀ (jm : Json) (n t b : String) (f : EmittedFile),
        (convert_java_model_to_bedrock (some jm) n t b).1 = false →
        f ∈ (convert_java_model_to_bedrock (some jm) n t b).2 →
        f.isAnimationFile = false ∧ f.isAttachableFile = false) ∧
    (∀ (fs : FS) (name : String) (st : PState) (mi : OverrideInfo) (p : String),
        find_model_file mi.model fs = some p →
        (convert_java_model_to_bedrock (readFile fs p)
            (name ++ kCmdSep ++ toString mi.custom_model_data)
            (jsonFmt (extract_texture_name (readFile fs p))) name).1 = false →
        (processOverride fs name st mi).items_data = st.items_data ∧
        (processOverride fs name st mi).missing_models = st.missing_models) ∧
    (∀ (fs : FS) (n : String) (mi : OverrideInfo) (ovs : List OverrideInfo)
        (rest : List (String × List OverrideInfo)) (st : PState),
        process_custom_models fs ((n, mi :: ovs) :: rest) st =
          process_custom_models fs ((n, ovs) :: rest) (processOverride fs n st mi)) := by
  refine ⟨fun n t b => rfl, ?_, ?_, fun fs n mi ovs rest st => rfl⟩
  · intro jm n t b f hfail hmem
    rw [convert_some] at hfail hmem
    unfold convertModelDoc at hfail hmem
    cases hb : buildGeometry jm n with
    | error u =>
      rw [hb] at hmem
      simp at hmem
    | ok gd =>
      obtain ⟨g, d2⟩ := gd
      rw [hb] at hfail hmem
      simp only at hfail hmem
      cases hA : (if pyTruthy d2 then create_animation n d2
          else Except.ok (create_default_animation n)) with
      | error u =>
        rw [hA] at hmem
        simp only [List.mem_cons, List.not_mem_nil, or_false] at hmem
        rcases hmem with hmem | hmem <;> rw [hmem] <;> exact ⟨rfl, rfl⟩
      | ok anim =>
        rw [hA] at hfail
        simp at hfail
  · intro fs name st mi p hfind hfail
    unfold processOverride
    rw [hfind]
    simp [hfail]

/-- Witness for C5 at the concrete failing model of the counterexample:
the geometry file emitted alongside the failure is neither an animation
nor an attachable. -/
theorem claim_C5_witness :
    (EmittedFile.geo (BedrockGeometry.mk (pGeometry ++ nSample) (Json.num 16) (Json.num 16)
        2 (5 / 2) [0, 3 / 4, 0] [])).isAnimationFile = false ∧
    (EmittedFile.geo (BedrockGeometry.mk (pGeometry ++ nSample) (Json.num 16) (Json.num 16)
        2 (5 / 2) [0, 3 / 4, 0] [])).isAttachableFile = false :=
  claim_C5.2.1 (Json.obj [(kDisplay, Json.num 1)]) nSample tSample bSample
    (EmittedFile.geo (BedrockGeometry.mk (pGeometry ++ nSample) (Json.num 16) (Json.num 16)
      2 (5 / 2) [0, 3 / 4, 0] [])) rfl (List.Mem.head _)

/- ----------------------------------------------------------------- -/
/- Claim C6: extract_texture_name.                                    -/
/- ----------------------------------------------------------------- -/

def kEmptyStr : String := ""

def nsTexRef : String := "ns:tex"

/-- Stripping the `namespace:` prefix from a texture reference. -/
def stripRef (s : String) : String :=
  if hasColon s then afterFirstColon s else s

/-- Modelled from the spec's words for claim C6: "the value at key
`layer0`, else the value at key `0`, else the first value in the
textures map's iteration order, else the empty string, with any
`namespace:` prefix stripped from the result". -/
def specTexturePriority (ts : List (String × String)) : String :=
  let raw :=
    match ts.find? (fun p => p.1 == kLayer0) with
    | some p => p.2
    | none =>
      match ts.find? (fun p => p.1 == kDigitZero) with
      | some p => p.2
      | none => ((ts.head?).map (fun p => p.2)).getD kEmptyStr
  stripRef raw

/-- What the source's `or`-chain actually computes on a string-valued
textures map: the first non-empty value among `layer0` and `0`, else the
first value in iteration order even when it is empty, else the empty
string. -/
def codeTextureChain (ts : List (String × String)) : String :=
  let v1 := ((ts.find? (fun p => p.1 == kLayer0)).map (fun p => p.2)).getD kEmptyStr
  let v2 := ((ts.find? (fun p => p.1 == kDigitZero)).map (fun p => p.2)).getD kEmptyStr
  if v1 ≠ kEmptyStr then v1
  else if v2 ≠ kEmptyStr then v2
  else ((ts.head?).map (fun p => p.2)).getD kEmptyStr

/-- Counterexample to claim C6 as stated: with
`textures = {"layer0": "", "0": "x"}` the code returns `"x"` (Python
`or` falls through on the empty string), while the claim's priority
rule returns the value at `layer0`, the empty string. -/
theorem claim_C6_counterexample :
    extract_texture_name (some (Json.obj [(kTextures,
        Json.obj [(kLayer0, Json.str kEmptyStr), (kDigitZero, Json.str kAxisX)])])) =
      Json.str kAxisX ∧
    specTexturePriority [(kLayer0, kEmptyStr), (kDigitZero, kAxisX)] = kEmptyStr ∧
    kAxisX ≠ kEmptyStr :=
  ⟨rfl, rfl, by decide⟩

theorem extractExc_canonical (ts : List (String × String)) :
    extractExc (Json.obj [(kTextures, Json.obj (ts.map (fun p => (p.1, Json.str p.2))))]) =
      Except.ok (Json.str (stripRef (codeTextureChain ts))) := by
  have hget : pyGetD (Json.obj [(kTextures, Json.obj (ts.map (fun p => (p.1, Json.str p.2))))])
      kTextures (Json.obj []) =
      Except.ok (Json.obj (ts.map (fun p => (p.1, Json.str p.2)))) := rfl
  unfold extractExc
  rw [hget]
  simp only [bindOk]
  have hfind1 : (ts.map (fun p => (p.1, Json.str p.2))).find? (fun p => p.1 == kLayer0) =
      (ts.find? (fun p => p.1 == kLayer0)).map (fun p => (p.1, Json.str p.2)) := by
    rw [List.find?_map]
    rfl
  have hfind2 : (ts.map (fun p => (p.1, Json.str p.2))).find? (fun p => p.1 == kDigitZero) =
      (ts.find? (fun p => p.1 == kDigitZero)).map (fun p => (p.1, Json.str p.2)) := by
    rw [List.find?_map]
    rfl
  have hhead : (ts.map (fun p => (p.1, Json.str p.2))).head? =
      ts.head?.map (fun p => (p.1, Json.str p.2)) := List.head?_map ..
  simp only [hfind1, hfind2, hhead, codeTextureChain]
  cases hf1 : ts.find? (fun p => p.1 == kLayer0) with
  | some p1 =>
    by_cases h1 : p1.2 = ""
    · cases hf2 : ts.find? (fun p => p.1 == kDigitZero) with
      | some p2 =>
        by_cases h2 : p2.2 = ""
        · cases hh : ts.head? with
          | some p0 =>
            simp [pyTruthy, h1, h2, hh, kEmptyStr, stripRef, pure, Except.pure, apply_ite] <;>
        (split <;> simp_all)
          | none =>
            simp [pyTruthy, h1, h2, hh, kEmptyStr, stripRef, pure, Except.pure, apply_ite] <;>
        (split <;> simp_all)
        · simp [pyTruthy, h1, h2, kEmptyStr, stripRef, pure, Except.pure, apply_ite] <;>
        (split <;> simp_all)
      | none =>
        cases hh : ts.head? with
        | some p0 => simp [pyTruthy, h1, hh, kEmptyStr, stripRef, pure, Except.pure, apply_ite] <;>
        (split <;> simp_all)
        | none => simp [pyTruthy, h1, hh, kEmptyStr, stripRef, pure, Except.pure, apply_ite] <;>
        (split <;> simp_all)
    · simp [pyTruthy, h1, kEmptyStr, stripRef, pure, Except.pure, apply_ite] <;>
        (split <;> simp_all)
  | none =>
    cases hf2 : ts.find? (fun p => p.1 == kDigitZero) with
    | some p2 =>
      by_cases h2 : p2.2 = ""
      · cases hh : ts.head? with
        | some p0 => simp [pyTruthy, h2, hh, kEmptyStr, stripRef, pure, Except.pure, apply_ite] <;>
        (split <;> simp_all)
        | none => simp [pyTruthy, h2, hh, kEmptyStr, stripRef, pure, Except.pure, apply_ite] <;>
        (split <;> simp_all)
      · simp [pyTruthy, h2, kEmptyStr, stripRef, pure, Except.pure, apply_ite] <;>
        (split <;> simp_all)
    | none =>
      cases hh : ts.head? with
      | some p0 => simp [pyTruthy, hh, kEmptyStr, stripRef, pure, Except.pure, apply_ite] <;>
        (split <;> simp_all)
      | none => simp [pyTruthy, hh, kEmptyStr, stripRef, pure, Except.pure, apply_ite] <;>
        (split <;> simp_all)

theorem extract_texture_name_some (m : Json) :
    extract_texture_name (some m) =
      (match extractExc m with
       | Except.error _ => Json.str kMissingTexture
       | Except.ok j => j) := rfl

/-- Claim C6 (amended): on a string-valued textures map the function
returns the first non-empty value among `layer0` and `0`, else the first
value in iteration order (taken even when empty), else the empty string
— Python `or` skips an empty string stored under `layer0`/`0` — with any
`namespace:` prefix stripped; a model file that cannot be read yields
`"missing_texture"`. -/
theorem claim_C6 (ts : List (String × String)) (hnd : (ts.map (fun p => p.1)).Nodup) :
    extract_texture_name (some (Json.obj [(kTextures,
        Json.obj (ts.map (fun p => (p.1, Json.str p.2))))])) =
      Json.str (stripRef (codeTextureChain ts)) ∧
    extract_texture_name none = Json.str kMissingTexture := by
  constructor
  · rw [extract_texture_name_some, extractExc_canonical]
  · rfl

/-- Witness for C6: `textures = {"layer0": "ns:tex"}` yields `"tex"`. -/
theorem claim_C6_witness :
    extract_texture_name (some (Json.obj [(kTextures,
        Json.obj [(kLayer0, Json.str nsTexRef)])])) = Json.str tSample ∧
    extract_texture_name none = Json.str kMissingTexture := by
  have h := claim_C6 [(kLayer0, nsTexRef)] (by simp)
  exact ⟨h.1.trans (by rfl), h.2⟩

/- ----------------------------------------------------------------- -/
/- Claim C7: find_model_file and the missing-model set.               -/
/- ----------------------------------------------------------------- -/

/-- Claim C7: a model reference resolves to
`assets/<namespace>/models/<path>.json` with namespace `minecraft` when
colon-free; `find_model_file` returns `None` exactly when that path does
not exist; such an override is skipped, touching only the missing-model
set (inserted only if absent); two overrides with the same nonexistent
reference therefore grow the set by exactly 1. -/
theorem claim_C7 :
    (∀ model_ref : String, hasColon model_ref = false →
        resolveModelPath model_ref =
          pAssets ++ kMinecraft ++ pModelsSeg ++ model_ref ++ extJson) ∧
    (∀ (model_ref : String) (fs : FS),
        find_model_file model_ref fs = none ↔
          pathExists fs (resolveModelPath model_ref) = false) ∧
    (∀ (fs : FS) (name : String) (st : PState) (mi : OverrideInfo),
        find_model_file mi.model fs = none →
        processOverride fs name st mi =
          PState.mk st.items_data
            (if mi.model ∈ st.missing_models then st.missing_models
             else st.missing_models ++ [mi.model]) st.emitted) ∧
    (∀ (fs : FS) (name : String) (st : PState) (mi : OverrideInfo),
        find_model_file mi.model fs = none → mi.model ∉ st.missing_models →
        (processOverride fs name (processOverride fs name st mi) mi).missing_models.length =
          st.missing_models.length + 1) := by
  refine ⟨?_, ?_, ?_, ?_⟩
  · intro r h
    simp [resolveModelPath, h]
  · intro r fs
    unfold find_model_file
    by_cases hp : pathExists fs (resolveModelPath r) <;> simp [hp]
  · intro fs name st mi h
    unfold processOverride
    rw [h]
  · intro fs name st mi h hnm
    have e1 : processOverride fs name st mi =
        PState.mk st.items_data (st.missing_models ++ [mi.model]) st.emitted := by
      unfold processOverride
      rw [h]
      simp [hnm]
    have e2 : processOverride fs name
        (PState.mk st.items_data (st.missing_models ++ [mi.model]) st.emitted) mi =
        PState.mk st.items_data (st.missing_models ++ [mi.model]) st.emitted := by
      unfold processOverride
      rw [h]
      simp
    rw [e1, e2]
    simp

/-- Witness for C7: the same nonexistent reference processed twice from
an empty state leaves exactly one entry in the missing-model set. -/
theorem claim_C7_witness :
    (processOverride [] nSample
        (processOverride [] nSample (PState.mk [] [] []) (OverrideInfo.mk 1 tSample none))
        (OverrideInfo.mk 1 tSample none)).missing_models.length =
      (PState.mk [] [] ([] : List EmittedFile)).missing_models.length + 1 :=
  claim_C7.2.2.2 [] nSample (PState.mk [] [] []) (OverrideInfo.mk 1 tSample none) rfl
    (by simp)

/- ----------------------------------------------------------------- -/
/- Claim C8: generate_geyser_mappings.                                -/
/- ----------------------------------------------------------------- -/

/-- The grouping key of a converted item. -/
def keyOf (it : ConvertedItem) : String := kMinecraftColon ++ it.base_item

theorem dedupFirst_mem (l : List String) (x : String) :
    x ∈ dedupFirst l ↔ x ∈ l := by
  have aux : ∀ (l : List String) (acc : List String),
      x ∈ l.foldl (fun acc k => if k ∈ acc then acc else acc ++ [k]) acc ↔
        x ∈ acc ∨ x ∈ l := by
    intro l
    induction l with
    | nil => intro acc; simp
    | cons a l ih =>
      intro acc
      rw [List.foldl_cons, ih]
      by_cases ha : a ∈ acc
      · simp only [ha, if_true, List.mem_cons]
        constructor
        · rintro (h | h)
          · exact Or.inl h
          · exact Or.inr (Or.inr h)
        · rintro (h | h | h)
          · exact Or.inl h
          · exact Or.inl (h ▸ ha)
          · exact Or.inr h
      · simp [ha, List.mem_append]
        constructor
        · rintro ((h | h) | h)
          · exact Or.inl h
          · exact Or.inr (Or.inl h)
          · exact Or.inr (Or.inr h)
        · rintro (h | h | h)
          · exact Or.inl (Or.inl h)
          · exact Or.inl (Or.inr h)
          · exact Or.inr h
  rw [dedupFirst, aux]
  simp

theorem dedupFirst_append_one (l : List String) (x : String) :
    dedupFirst (l ++ [x]) =
      if x ∈ dedupFirst l then dedupFirst l else dedupFirst l ++ [x] := by
  simp [dedupFirst, List.foldl_append]

theorem find?_keyed (l : List String) (g : String → List GeyserEntry) (k : String) :
    ((l.map (fun k2 => (k2, g k2))).find? (fun p => p.1 == k)).isSome = true ↔ k ∈ l := by
  induction l with
  | nil => simp
  | cons a l ih =>
    by_cases ha : a = k
    · simp [List.find?, ha]
    · have hb : (a == k) = false := by simpa using ha
      simp only [List.map_cons, List.find?, hb]
      rw [ih]
      simp [ha]
      intro h
      exact absurd h.symm ha

theorem generate_step (items : List ConvertedItem) (a : ConvertedItem) :
    generate_geyser_mappings (items ++ [a]) =
      addGrouped (generate_geyser_mappings items) (keyOf a) (mkEntry a) := by
  simp [generate_geyser_mappings, List.foldl_append, keyOf]

theorem generate_eq (items : List ConvertedItem) :
    generate_geyser_mappings items =
      (dedupFirst (items.map keyOf)).map
        (fun k => (k, (items.filter (fun it => keyOf it == k)).map mkEntry)) := by
  induction items using List.reverseRecOn with
  | nil => rfl
  | append_singleton items a ih =>
    rw [generate_step, ih]
    have hm : (items ++ [a]).map keyOf = items.map keyOf ++ [keyOf a] := by simp
    rw [hm, dedupFirst_append_one]
    by_cases hmem : keyOf a ∈ dedupFirst (items.map keyOf)
    · have hfind : (((dedupFirst (items.map keyOf)).map
          (fun k => (k, (items.filter (fun it => keyOf it == k)).map mkEntry))).find?
            (fun p => p.1 == keyOf a)).isSome = true :=
        (find?_keyed _ _ _).mpr hmem
      rw [addGrouped, if_pos hfind, if_pos hmem, List.map_map]
      apply List.map_congr_left
      intro k _
      by_cases hk : k = keyOf a
      · simp [Function.comp, hk, List.filter_append, List.filter]
      · have hk2 : (keyOf a == k) = false := by
          simpa using fun he => hk he.symm
        have hk3 : (k == keyOf a) = false := by simpa using hk
        simp [Function.comp, List.filter_append, List.filter, hk2, hk3]
    · have hfind : (((dedupFirst (items.map keyOf)).map
          (fun k => (k, (items.filter (fun it => keyOf it == k)).map mkEntry))).find?
            (fun p => p.1 == keyOf a)).isSome ≠ true := by
        intro hcontra
        exact hmem ((find?_keyed (dedupFirst (items.map keyOf))
          (fun k => (items.filter (fun it => keyOf it == k)).map mkEntry)
          (keyOf a)).mp hcontra)
      rw [addGrouped, if_neg (by simpa using hfind), if_neg hmem, List.map_append]
      have hnotin : keyOf a ∉ items.map keyOf := by
        intro h
        exact hmem ((dedupFirst_mem _ _).mpr h)
      congr 1
      · apply List.map_congr_left
        intro k hk
        have hka : keyOf a ≠ k := by
          intro he
          rw [he] at hmem
          exact hmem hk
        have hka2 : (keyOf a == k) = false := by simpa using hka
        simp [List.filter_append, List.filter, hka2]
      · have hfilt : items.filter (fun it => keyOf it == keyOf a) = [] := by
          rw [List.filter_eq_nil_iff]
          intro it hit
          simp only [ne_eq, beq_iff_eq]
          intro he
          exact hnotin (he ▸ List.mem_map_of_mem keyOf hit)
        simp [List.filter_append, List.filter, hfilt]

/-- Claim C8 (amended): the mapping groups the converted items by
`"minecraft:" + base_item_name` in first-discovery key order, each group
holding, in discovery order, the entries of its items with
`custom_model_data` stringified, `bedrock_identifier = "custom:" + name`,
`display_name` the name with underscores replaced by spaces and
title-cased as by Python `str.title` (a letter after a non-letter is
uppercased, a letter after a letter lowercased), `texture` copied, and
`geometry = "geometry." + name`. -/
theorem claim_C8 (items : List ConvertedItem) :
    generate_geyser_mappings items =
      (dedupFirst (items.map (fun it => kMinecraftColon ++ it.base_item))).map
        (fun k => (k,
          (items.filter (fun it => kMinecraftColon ++ it.base_item == k)).map
            (fun it => GeyserEntry.mk (toString it.custom_model_data) (pCustom ++ it.name)
              (pyTitle (pyReplaceUnderscore it.name)) it.texture (pGeometry ++ it.name)))) :=
  generate_eq items

/-- Modelled from the spec's words for claim C8: "display_name equal to
outputName with underscores replaced by spaces and each word
capitalized" — split the string on spaces and uppercase each word's
first character. -/
def capitalizeWord (w : List Char) : List Char :=
  match w with
  | [] => []
  | c :: cs => c.toUpper :: cs

def splitOnSpace : List Char → List (List Char)
  | [] => [[]]
  | c :: cs =>
    match splitOnSpace cs with
    | [] => [[c]]
    | h :: t => if c == ' ' then [] :: h :: t else (c :: h) :: t

def specCapitalizeWords (s : String) : String :=
  String.mk (List.intercalate [' '] ((splitOnSpace s.data).map capitalizeWord))

def x2yName : String := "x2y_cmd1"

def x2yBase : String := "x2y"

def titleX2y : String := "X2Y Cmd1"

def capX2y : String := "X2y Cmd1"

/-- Counterexample to claim C8 as stated: for the item name `x2y_cmd1`
Python `str.title` uppercases the letter after the digit, producing
`"X2Y Cmd1"`, while capitalizing each space-separated word produces
`"X2y Cmd1"`; the generated mapping carries the former. -/
theorem claim_C8_counterexample :
    generate_geyser_mappings [ConvertedItem.mk x2yName x2yBase 1 tSample kMinecraft] =
      [(kMinecraftColon ++ x2yBase,
        [GeyserEntry.mk (toString (1 : Int)) (pCustom ++ x2yName) titleX2y tSample
          (pGeometry ++ x2yName)])] ∧
    specCapitalizeWords (pyReplaceUnderscore x2yName) = capX2y ∧
    titleX2y ≠ capX2y :=
  ⟨rfl, rfl, by decide⟩
